import Mathlib

/-!
Shallow embedding of the Simple_chat relay server
(`src/server.ts`, `src/lib/redis.ts`, `src/lib/auth.ts`) in Lean 4.

JavaScript values that cross the Redis queue are serialized with
`JSON.stringify` and read back with `JSON.parse`; we model the JSON data
domain with `JsonValue` and treat `JSON.parse (JSON.stringify v) = v` as
the identity on JSON values, so queued items store `JsonValue`s directly.
JS numbers are modelled as `Int` for timestamps and as `ℚ` for the
token-bucket arithmetic.  Console logging and network I/O are omitted;
every socket emission is returned as an explicit event list.
-/

/- JSON data domain (numbers restricted to integers, which covers every
number appearing in the repository's envelopes).  Arrays and objects are
given by the mutual types `JsonList` and `JsonFields`. -/
mutual

/-- JSON value. -/
inductive JsonValue where
  | null : JsonValue
  | bool (b : Bool) : JsonValue
  | num (n : Int) : JsonValue
  | str (s : String) : JsonValue
  | arr (xs : JsonList) : JsonValue
  | obj (fields : JsonFields) : JsonValue
  deriving DecidableEq

inductive JsonList where
  | nil : JsonList
  | cons (hd : JsonValue) (tl : JsonList) : JsonList
  deriving DecidableEq

inductive JsonFields where
  | nil : JsonFields
  | cons (key : String) (val : JsonValue) (tl : JsonFields) : JsonFields
  deriving DecidableEq

end

/-- Building a JSON array from a Lean list of values. -/
def JsonList.ofList : List JsonValue → JsonList
  | [] => .nil
  | v :: vs => .cons v (ofList vs)

/-- JavaScript truthiness of a JSON value (`''`, `0`, `false`, `null` are
falsy). -/
def jsTruthy : JsonValue → Bool
  | .null => false
  | .bool b => b
  | .num n => n ≠ 0
  | .str s => s ≠ ""
  | _ => true

/-- Payload variant carried by a relay request: the server receives either a
Node `Buffer` (binary), a JS string, or a structured JSON value
(`src/types/protocol.ts`, `payload: Uint8Array | string | any`). -/
inductive Payload where
  | binary (bytes : List Nat) : Payload
  | text (s : String) : Payload
  | structured (v : JsonValue) : Payload
  deriving DecidableEq

/-- Encoding a payload as a JSON value, following `JSON.stringify`: a string
stays a string, a structured value stays itself, and a Node `Buffer` is
serialized through `Buffer.prototype.toJSON` as
an object with a "type": "Buffer" field and a "data" array of byte values. -/
def encodePayload : Payload → JsonValue
  | .text s => .str s
  | .structured v => v
  | .binary bytes =>
      .obj (.cons "type" (.str "Buffer")
        (.cons "data" (.arr (JsonList.ofList (bytes.map fun b => .num b))) .nil))

/-- Classifying a JSON value produced by `JSON.parse` back into the payload
variant: a JSON string is a JS string (text); everything else is a plain
structured value — `JSON.parse` can never produce a `Buffer`. -/
def parsePayload : JsonValue → Payload
  | .str s => .text s
  | v => .structured v

/-- Association-list read, modelling a `Map.get` or a Redis key read. -/
def alistGet {α : Type} (l : List (String × α)) (k : String) : Option α :=
  match l with
  | [] => none
  | (k', v) :: rest => if k' = k then some v else alistGet rest k

/-- Association-list write, modelling a `Map.set` or a Redis key write. -/
def alistSet {α : Type} (l : List (String × α)) (k : String) (v : α) :
    List (String × α) :=
  match l with
  | [] => [(k, v)]
  | (k', v') :: rest =>
      if k' = k then (k, v) :: rest else (k', v') :: alistSet rest k v

/-- Association-list delete, modelling a `Map.delete` or a Redis `del`. -/
def alistRemove {α : Type} (l : List (String × α)) (k : String) :
    List (String × α) :=
  match l with
  | [] => []
  | (k', v) :: rest =>
      if k' = k then alistRemove rest k else (k', v) :: alistRemove rest k

/-- Relay envelope as built by the relay handler (`src/server.ts:223-229`);
the handler never sets the optional `type` field, so it is `none` for the
envelopes it constructs. -/
structure RelayPayload where
  msgId : String
  from_ : String
  to_ : String
  payload : Payload
  timestamp : Int
  type : Option String := none
  deriving DecidableEq

/-- Item stored in the `queue:recipient` Redis list: the JSON-serialized
envelope with the extra `expiresAt` field added by `MessageQueue.push`
(`src/lib/redis.ts:60-63`).  The payload sits in its JSON encoding. -/
structure QueuedItem where
  msgId : String
  from_ : String
  to_ : String
  payload : JsonValue
  timestamp : Int
  type : Option String
  expiresAt : Int
  deriving DecidableEq

/-- Envelope as seen by a client after `flush` applies `JSON.parse` to a
stored item: the payload comes back as a parsed JSON value. -/
structure FlushedEnvelope where
  msgId : String
  from_ : String
  to_ : String
  payload : Payload
  timestamp : Int
  type : Option String
  expiresAt : Int
  deriving DecidableEq

/-- Queue item TTL in seconds (`src/lib/redis.ts:35`). -/
def QUEUE_TTL_SEC : Int := 30 * 60

/-- State of one `queue:recipient` Redis key: the stored list plus the
key-level expiry deadline set by `redis.expire`.  Redis drops the whole
key once the deadline passes, so an expired key reads as empty. -/
structure QueueState where
  items : List QueuedItem
  keyExpireAt : Int
  deriving DecidableEq

/-- Absent (or just-deleted) queue key. -/
def QueueState.empty : QueueState := ⟨[], 0⟩

/-- Items actually present in Redis at time `now` (an expired key has been
dropped by Redis and reads as the empty list). -/
def QueueState.live (qs : QueueState) (now : Int) : List QueuedItem :=
  if now < qs.keyExpireAt then qs.items else []

/-- The `MessageQueue.push` operation (`src/lib/redis.ts:58-67`): serialize
the envelope together with `expiresAt = now + QUEUE_TTL_SEC * 1000`,
`rpush` it onto the list, and reset the key TTL to `QUEUE_TTL_SEC`.
There is no length check of any kind. -/
def MessageQueue.push (now : Int) (qs : QueueState) (env : RelayPayload) :
    QueueState :=
  { items := qs.live now ++
      [{ msgId := env.msgId, from_ := env.from_, to_ := env.to_,
         payload := encodePayload env.payload, timestamp := env.timestamp,
         type := env.type, expiresAt := now + QUEUE_TTL_SEC * 1000 }],
    keyExpireAt := now + QUEUE_TTL_SEC * 1000 }

/-- Deserialization of one stored queue item (`JSON.parse` in
`src/lib/redis.ts:74`). -/
def decodeItem (it : QueuedItem) : FlushedEnvelope :=
  { msgId := it.msgId, from_ := it.from_, to_ := it.to_,
    payload := parsePayload it.payload, timestamp := it.timestamp,
    type := it.type, expiresAt := it.expiresAt }

/-- The `MessageQueue.flush` operation (`src/lib/redis.ts:69-75`): read the
entire list, delete the key, and return every stored item parsed back.
No filtering by the per-item `expiresAt` happens anywhere. -/
def MessageQueue.flush (now : Int) (qs : QueueState) :
    List FlushedEnvelope × QueueState :=
  ((qs.live now).map decodeItem, QueueState.empty)

/-- Per-socket token bucket (`src/server.ts:60`). -/
structure RateBucket where
  tokens : ℚ
  lastRefill : Int
  deriving DecidableEq

/-- Bucket capacity (`src/server.ts:61`). -/
def MAX_TOKENS : ℚ := 100

/-- Bucket refill speed in tokens per second (`src/server.ts:62`). -/
def REFILL_RATE : ℚ := 10

/-- Token-bucket rate limiter (`src/server.ts:64-78`).  Returns the admit
decision together with the updated per-socket bucket map.  The source
mutates the looked-up bucket object in place, so a pre-existing map entry
is refreshed even on the reject path, while a missing entry is written
only on the admit path (which calls `rateLimits.set`). -/
def checkRateLimit (now : Int) (rateLimits : List (String × RateBucket))
    (socketId : String) : Bool × List (String × RateBucket) :=
  let limit0 :=
    (alistGet rateLimits socketId).getD { tokens := MAX_TOKENS, lastRefill := now }
  let elapsed : ℚ := ((now - limit0.lastRefill : Int) : ℚ) / 1000
  let tokens : ℚ := min MAX_TOKENS (limit0.tokens + elapsed * REFILL_RATE)
  if tokens ≥ 1 then
    (true, alistSet rateLimits socketId { tokens := tokens - 1, lastRefill := now })
  else
    (false,
      if (alistGet rateLimits socketId).isSome then
        alistSet rateLimits socketId { tokens := tokens, lastRefill := now }
      else rateLimits)

/-- Record stored under an `invite:code` Redis key
(`src/server.ts:125-128`). -/
structure InviteRecord where
  uuid : String
  username : String
  deriving DecidableEq

/-- Global server state: the in-process maps of `src/server.ts` together
with the Redis-held presence, queue and invite keys.  `connectedSockets`
models `io.sockets.sockets` (the sockets currently connected). -/
structure ServerState where
  socketToUuid : List (String × String)
  rateLimits : List (String × RateBucket)
  connectedSockets : List String
  onlineUsers : List String
  presence : List (String × (String × Int))
  queues : List (String × QueueState)
  invites : List (String × (InviteRecord × Int))
  deriving DecidableEq

/-- The `PresenceStore.setOnline` operation (`src/lib/redis.ts:38-41`):
`sadd` to the `online_users` set and write `presence:uuid` with a one-hour
TTL. -/
def PresenceStore.setOnline (now : Int) (st : ServerState)
    (uuid socketId : String) : ServerState :=
  { st with
    onlineUsers :=
      if st.onlineUsers.contains uuid then st.onlineUsers
      else st.onlineUsers ++ [uuid],
    presence := alistSet st.presence uuid (socketId, now + 3600 * 1000) }

/-- The `PresenceStore.setOffline` operation (`src/lib/redis.ts:43-46`):
`srem` from `online_users` and delete `presence:uuid`. -/
def PresenceStore.setOffline (st : ServerState) (uuid : String) : ServerState :=
  { st with
    onlineUsers := st.onlineUsers.filter (fun u => u ≠ uuid),
    presence := alistRemove st.presence uuid }

/-- The `PresenceStore.isOnline` operation (`src/lib/redis.ts:48-50`):
membership in the `online_users` set. -/
def PresenceStore.isOnline (st : ServerState) (uuid : String) : Bool :=
  st.onlineUsers.contains uuid

/-- The `PresenceStore.getSocketId` operation (`src/lib/redis.ts:52-54`):
read `presence:uuid`, respecting the key TTL. -/
def PresenceStore.getSocketId (now : Int) (st : ServerState) (uuid : String) :
    Option String :=
  match alistGet st.presence uuid with
  | none => none
  | some (sid, expireAt) => if now < expireAt then some sid else none

/-- Queue key for a recipient, defaulting to the absent key. -/
def ServerState.queueOf (st : ServerState) (uuid : String) : QueueState :=
  (alistGet st.queues uuid).getD QueueState.empty

/-- Account row of the Postgres `accounts` table
(`src/lib/db.ts`, `src/sql/schema.sql`). -/
structure Account where
  account_uuid : String
  username : String
  account_salt : String
  kdf_params : JsonValue
  dh_public_key : Option JsonValue
  deriving DecidableEq

/-- External account store, a list of rows (usernames and uuids unique in
any state the database accepts). -/
abbrev AccountDb := List Account

/-- The `Auth.exists` query (`src/lib/auth.ts:45-49`). -/
def Auth.existsUuid (db : AccountDb) (uuid : String) : Bool :=
  db.any (fun a => a.account_uuid = uuid)

/-- The `Auth.getAccount` query (`src/lib/auth.ts:51-55`). -/
def Auth.getAccount (db : AccountDb) (uuid : String) : Option Account :=
  db.find? (fun a => a.account_uuid = uuid)

/-- The `Auth.updatePublicKey` update (`src/lib/auth.ts:5-12`): set
`dh_public_key` on the row with this uuid; a missing row changes
nothing. -/
def Auth.updatePublicKey (db : AccountDb) (uuid : String)
    (publicKey : Option JsonValue) : AccountDb :=
  db.map (fun a =>
    if a.account_uuid = uuid then { a with dh_public_key := publicKey } else a)

/-- Outcome of `Auth.register`; the `DB_ERROR` branch of the source is an
exception path of the Postgres driver and is outside this model. -/
inductive RegisterResult where
  | success : RegisterResult
  | usernameTaken : RegisterResult
  deriving DecidableEq

/-- The `Auth.register` operation (`src/lib/auth.ts:14-37`): fail with
`USERNAME_TAKEN` when the username belongs to a different uuid; otherwise
`INSERT` the row, and on a uuid conflict only update `dh_public_key`. -/
def Auth.register (db : AccountDb) (uuid username salt : String)
    (kdfParams : JsonValue) (publicKey : Option JsonValue) :
    RegisterResult × AccountDb :=
  if db.any (fun a => a.username = username ∧ a.account_uuid ≠ uuid) then
    (.usernameTaken, db)
  else if db.any (fun a => a.account_uuid = uuid) then
    (.success, db.map (fun a =>
      if a.account_uuid = uuid then { a with dh_public_key := publicKey } else a))
  else
    let row : Account :=
      { account_uuid := uuid, username := username,
        account_salt := salt, kdf_params := kdfParams,
        dh_public_key := publicKey }
    (.success, db ++ [row])

/-- Events the server emits to sockets; an emission list pairs each event
with the id of the destination socket. -/
inductive ServerEvent where
  | relay_push (env : RelayPayload) : ServerEvent
  | dispatch_status (to_ msgId status : String) : ServerEvent
  | error_msg (message : String) : ServerEvent
  | registered (ty uuid : String) : ServerEvent
  | queue_flush (items : List FlushedEnvelope) : ServerEvent
  | invite_code_created (code : String) (expiresAt : Int) : ServerEvent
  | msg_ack_push (from_ msgId : String) : ServerEvent
  deriving DecidableEq

/-- Emission list produced by one handler invocation. -/
abbrev Emits := List (String × ServerEvent)

/-- Payload of the `register_master` client event (`src/types/protocol.ts`
with the optional `publicKey` of `src/server.ts:174`).  A JS field that is
absent is `none`; the empty string is falsy like an absent field. -/
structure RegisterMasterEvent where
  uuid : String
  username : Option String := none
  salt : Option String := none
  kdfParams : Option JsonValue := none
  publicKey : Option JsonValue := none
  deriving DecidableEq

/-- JS truthiness of an optional string field. -/
def truthyStr : Option String → Bool
  | none => false
  | some s => s ≠ ""

/-- JS truthiness of an optional JSON field. -/
def truthyJson : Option JsonValue → Bool
  | none => false
  | some v => jsTruthy v

/-- Continuation of `register_master` after the auto-signup branch
(`src/server.ts:191-206`): reject unknown uuids, otherwise bind the
socket, mark the identity online, and flush the identity's queue. -/
def registerMasterContinue (db : AccountDb) (st : ServerState) (now : Int)
    (socketId : String) (ev : RegisterMasterEvent) :
    AccountDb × ServerState × Emits :=
  if ev.uuid = "" || !(Auth.existsUuid db ev.uuid) then
    (db, st, [(socketId, .error_msg "Invalid UUID or Unauthorized")])
  else
    let st1 :=
      { st with socketToUuid := alistSet st.socketToUuid socketId ev.uuid }
    let st2 := PresenceStore.setOnline now st1 ev.uuid socketId
    let flushRes := MessageQueue.flush now (st2.queueOf ev.uuid)
    let st3 := { st2 with queues := alistSet st2.queues ev.uuid flushRes.2 }
    (db, st3,
      (socketId, .registered "master" ev.uuid) ::
      (if flushRes.1.length > 0 then [(socketId, .queue_flush flushRes.1)]
       else []))

/-- The `register_master` handler (`src/server.ts:174-206`).  Returns the
updated account store, the updated server state, and the emissions. -/
def registerMasterHandler (db : AccountDb) (st : ServerState) (now : Int)
    (socketId : String) (ev : RegisterMasterEvent) :
    AccountDb × ServerState × Emits :=
  if truthyStr ev.username && truthyStr ev.salt && truthyJson ev.kdfParams then
    let res := Auth.register db ev.uuid (ev.username.getD "") (ev.salt.getD "")
      (ev.kdfParams.getD .null) ev.publicKey
    match res.1 with
    | .usernameTaken =>
        (res.2, st,
         [(socketId,
           .error_msg "Username already taken. Please choose another one.")])
    | .success => registerMasterContinue res.2 st now socketId ev
  else
    registerMasterContinue
      (if ev.uuid ≠ "" && truthyJson ev.publicKey then
        Auth.updatePublicKey db ev.uuid ev.publicKey
      else db) st now socketId ev

/-- Payload of a client `relay` event; `payload = none` models the JS
`undefined` checked at `src/server.ts:211`. -/
structure RelayData where
  msgId : String
  to_ : String
  payload : Option Payload
  deriving DecidableEq

/-- The `relay` handler (`src/server.ts:209-241`).  An unbound socket, a
missing `to` or a missing payload cause a silent `return` with no
emission.  Console metadata logging does not affect state or emissions
and is omitted. -/
def relayHandler (st : ServerState) (now : Int) (socketId : String)
    (data : RelayData) : ServerState × Emits :=
  match alistGet st.socketToUuid socketId, data.payload with
  | none, _ => (st, [])
  | _, none => (st, [])
  | some senderUuid, some payload =>
    if data.to_ = "" then (st, [])
    else
      let rl := checkRateLimit now st.rateLimits socketId
      let st1 := { st with rateLimits := rl.2 }
      if !rl.1 then
        (st1, [(socketId, .error_msg "Rate limit exceeded")])
      else
        let relayData : RelayPayload :=
          { msgId := data.msgId, from_ := senderUuid, to_ := data.to_,
            payload := payload, timestamp := now }
        let newQueue := MessageQueue.push now (st1.queueOf data.to_) relayData
        let queued :=
          ({ st1 with queues := alistSet st1.queues data.to_ newQueue },
           [(socketId, .dispatch_status data.to_ data.msgId "queued")])
        match PresenceStore.getSocketId now st1 data.to_ with
        | some rsid =>
          if st1.connectedSockets.contains rsid then
            (st1, [(rsid, .relay_push relayData),
                   (socketId, .dispatch_status data.to_ data.msgId "delivered")])
          else queued
        | none => queued

/-- Base-36 digit rendered as the uppercase character that
`Number.prototype.toString(36)` followed by `toUpperCase()` produces. -/
def base36UpperChar (d : Fin 36) : Char :=
  if d.val < 10 then Char.ofNat (48 + d.val) else Char.ofNat (55 + d.val)

/-- Invite-code generation (`src/server.ts:111`):
`Math.random().toString(36).substring(2, 8).toUpperCase()`.  The argument
is the sequence of base-36 fractional digits of the `Math.random` value
(with trailing zeros trimmed, as `toString` trims them), and
`substring(2, 8)` keeps at most the first six. -/
def genInviteCode (randDigits : List (Fin 36)) : String :=
  String.mk ((randDigits.take 6).map base36UpperChar)

/-- The `create_invite_code` handler (`src/server.ts:105-135`): requires a
bound identity, generates the code from `Math.random`, stores
`invite:code` holding the uuid and the account's username (or "Unknown")
with a TTL of 86400 seconds, and reports the code with `expiresAt` one
day ahead. -/
def createInviteCodeHandler (db : AccountDb) (st : ServerState) (now : Int)
    (socketId : String) (randDigits : List (Fin 36)) : ServerState × Emits :=
  match alistGet st.socketToUuid socketId with
  | none => (st, [(socketId, .error_msg "Unauthorized")])
  | some uuid =>
    let code := genInviteCode randDigits
    let username :=
      match Auth.getAccount db uuid with
      | some a => if a.username ≠ "" then a.username else "Unknown"
      | none => "Unknown"
    let entry : InviteRecord × Int :=
      ({ uuid := uuid, username := username }, now + 86400 * 1000)
    ({ st with invites := alistSet st.invites code entry },
     [(socketId, .invite_code_created code (now + 86400 * 1000))])

/-- The `disconnect` handler (`src/server.ts:280-288`): when the socket has
a bound identity, unconditionally mark that identity offline — even when
other live sockets remain bound to the same identity — and drop the
binding; always delete the rate bucket, and the transport removes the
socket from `io.sockets.sockets`. -/
def disconnectHandler (st : ServerState) (socketId : String) : ServerState :=
  let st1 :=
    match alistGet st.socketToUuid socketId with
    | some uuid =>
      let st' := PresenceStore.setOffline st uuid
      { st' with socketToUuid := alistRemove st'.socketToUuid socketId }
    | none => st
  { st1 with rateLimits := alistRemove st1.rateLimits socketId,
             connectedSockets :=
               st1.connectedSockets.filter (fun s => s ≠ socketId) }

/-- A new transport connection (`io.on('connection')`,
`src/server.ts:80`): the socket joins `io.sockets.sockets`. -/
def connectHandler (st : ServerState) (socketId : String) : ServerState :=
  { st with connectedSockets :=
      if st.connectedSockets.contains socketId then st.connectedSockets
      else st.connectedSockets ++ [socketId] }

/-- Escaping of quote and backslash characters inside a JSON string (the
control-character escapes of full JSON do not arise in any payload
considered here). -/
def jsonEscape (s : String) : String :=
  s.data.foldl (fun acc c =>
    if c = '"' then acc ++ "\\\""
    else if c = '\\' then acc ++ "\\\\"
    else acc.push c) ""

mutual

/-- Minimal model of `JSON.stringify` on the JSON data domain. -/
def stringifyJson : JsonValue → String
  | .null => "null"
  | .bool true => "true"
  | .bool false => "false"
  | .num n => toString n
  | .str s => "\"" ++ jsonEscape s ++ "\""
  | .arr xs => "[" ++ stringifyList xs ++ "]"
  | .obj fs => "\x7b" ++ stringifyFields fs ++ "\x7d"

/-- Comma-separated serialization of a JSON array body. -/
def stringifyList : JsonList → String
  | .nil => ""
  | .cons v .nil => stringifyJson v
  | .cons v tl => stringifyJson v ++ "," ++ stringifyList tl

/-- Comma-separated serialization of a JSON object body. -/
def stringifyFields : JsonFields → String
  | .nil => ""
  | .cons k v .nil => "\"" ++ jsonEscape k ++ "\":" ++ stringifyJson v
  | .cons k v tl =>
      "\"" ++ jsonEscape k ++ "\":" ++ stringifyJson v ++ "," ++
        stringifyFields tl

end

/-- Payload size computation (`src/server.ts:217-218`): `Buffer.length` for
binary data, `Buffer.byteLength` (UTF-8 byte count) for strings, and the
length of the `JSON.stringify` output for structured values.  The relay
handler computes this value for its metadata log only. -/
def payloadSize : Payload → Nat
  | .binary bytes => bytes.length
  | .text s => s.utf8ByteSize
  | .structured v => (stringifyJson v).length

/-- Maximum payload size named by the specification (5 MiB).  No identifier
of this name — and no size check at all — exists in the source; the only
cap is the transport frame limit `maxHttpBufferSize = 1e7`
(`src/server.ts:29`). -/
def MAX_PAYLOAD_SIZE : Nat := 5 * 1024 * 1024

/-- Bucket a request is judged against: the stored bucket for the socket or
the fresh full bucket the source creates on a missing map entry. -/
def bucketOf (rateLimits : List (String × RateBucket)) (socketId : String)
    (now : Int) : RateBucket :=
  (alistGet rateLimits socketId).getD { tokens := MAX_TOKENS, lastRefill := now }

/-- Token-bucket step exactly as the specification words it: first
`tokens = min(MAX_TOKENS, tokens + (now - last_refill) * REFILL_RATE)`
and `last_refill = now`, then admit (consuming one token) iff
`tokens ≥ 1`.  Timestamps are in milliseconds, so the elapsed time in
seconds is `(now - last_refill) / 1000`. -/
def specRateLimitStep (b : RateBucket) (now : Int) : Bool × RateBucket :=
  let tokens : ℚ :=
    min MAX_TOKENS (b.tokens + ((now - b.lastRefill : Int) : ℚ) / 1000 * REFILL_RATE)
  if tokens ≥ 1 then (true, { tokens := tokens - 1, lastRefill := now })
  else (false, { tokens := tokens, lastRefill := now })

/-- Concrete server state with socket "s1" bound to "u1" and an almost
depleted rate bucket, used to exercise the rate-limit rejection. -/
def stC6 : ServerState :=
  ⟨[("s1", "u1")], [("s1", { tokens := 0, lastRefill := 0 })], ["s1"],
   ["u1"], [("u1", ("s1", 3600000))], [], []⟩

/-- Concrete account store with two registered users. -/
def demoDb : AccountDb :=
  [{ account_uuid := "u1", username := "alice", account_salt := "salt1",
     kdf_params := .obj .nil, dh_public_key := none },
   { account_uuid := "u2", username := "bob", account_salt := "salt2",
     kdf_params := .obj .nil, dh_public_key := none }]

/-- Server state at boot, before any connection. -/
def ServerState.initial : ServerState := ⟨[], [], [], [], [], [], []⟩

/-- State reached after a socket connects and completes `register_master`
for the given uuid against `demoDb`. -/
def demoRegister (st : ServerState) (now : Int) (socketId uuid : String) :
    ServerState :=
  (registerMasterHandler demoDb (connectHandler st socketId) now socketId
    { uuid := uuid }).2.1

/-- Minimal live state: socket "s1" connected and bound to "u1", the
recipient "u2" offline. -/
def stBound : ServerState :=
  ⟨[("s1", "u1")], [], ["s1"], ["u1"], [("u1", ("s1", 3600000))], [], []⟩

/-- Spec constant MAX_QUEUE_LEN; no identifier of this name, and no queue
length bound at all, exists in the source. -/
def MAX_QUEUE_LEN : Nat := 100

/-- Envelope number i of the queue-overflow scenario. -/
def envC1 (i : Nat) : RelayPayload :=
  { msgId := "m" ++ toString i, from_ := "u1", to_ := "u2",
    payload := .text "x", timestamp := 0 }

/-- Queue of an offline recipient already holding MAX_QUEUE_LEN items
(pushed at time 0). -/
def fullQueueC1 : QueueState :=
  (List.range 100).foldl (fun q i => MessageQueue.push 0 q (envC1 i))
    QueueState.empty

/-- State where "s1" is bound to "u1", "u2" is offline, and the queue of
"u2" already holds MAX_QUEUE_LEN items. -/
def stC1 : ServerState :=
  ⟨[("s1", "u1")], [], ["s1"], ["u1"], [("u1", ("s1", 3600000))],
   [("u2", fullQueueC1)], []⟩

/-- State with sockets "s1" and "s2" both bound to "u1" (two devices of
one user) and "s3" bound to "u2", reached through three register_master
calls. -/
def stC2 : ServerState :=
  demoRegister (demoRegister (demoRegister ServerState.initial 0 "s1" "u1")
    0 "s2" "u1") 0 "s3" "u2"

/-- Oversized payload: one byte more than the 5 MiB the specification
allows. -/
def bigC3 : Payload := .binary (List.replicate (MAX_PAYLOAD_SIZE + 1) 0)

/-- Queue of "u2" after a push at time 0 and a push at time 1740000
(29 min): the Redis key survives until 3540000 while the first item's
own expiry passes at 1800000. -/
def queueC4 : QueueState :=
  MessageQueue.push 1740000
    (MessageQueue.push 0 QueueState.empty
      ⟨"m1", "u1", "u2", .text "early", 0, none⟩)
    ⟨"m2", "u1", "u2", .text "late", 1740000, none⟩

/-- State where "u2" is offline with the two-item queue above and socket
"s2" is freshly connected. -/
def stC4 : ServerState :=
  ⟨[], [], ["s2"], [], [], [("u2", queueC4)], []⟩

/-- State with two live sockets "s1" and "s2" both bound to identity "u1",
reached through two register_master calls. -/
def stC5 : ServerState :=
  demoRegister (demoRegister ServerState.initial 0 "s1" "u1") 0 "s2" "u1"

/-- Base-36 digit sequence whose generated invite code is "ZZZZZZ". -/
def dC9 : List (Fin 36) := List.replicate 6 ⟨35, by omega⟩

/-- Base-36 digit sequence of a Math.random value such as 1/36 whose
toString(36) is "0.1": the generated code is the single character "1". -/
def dShortC9 : List (Fin 36) := [⟨1, by omega⟩]

theorem alistGet_set_eq {α : Type} (l : List (String × α)) (k : String)
    (v : α) : alistGet (alistSet l k v) k = some v := by
  induction l with
  | nil => simp [alistGet, alistSet]
  | cons hd tl ih =>
    obtain ⟨k', v'⟩ := hd
    by_cases h : k' = k <;> simp [alistSet, alistGet, h, ih]

theorem alistGet_set_ne {α : Type} (l : List (String × α)) (k k2 : String)
    (v : α) (h : k2 ≠ k) : alistGet (alistSet l k v) k2 = alistGet l k2 := by
  have h' : k ≠ k2 := Ne.symm h
  induction l with
  | nil => simp [alistGet, alistSet, h']
  | cons hd tl ih =>
    obtain ⟨k', v'⟩ := hd
    by_cases hk : k' = k
    · subst hk
      simp [alistSet, alistGet, h']
    · simp [alistSet, alistGet, hk, ih]

theorem alistGet_remove_ne {α : Type} (l : List (String × α)) (k k2 : String)
    (h : k2 ≠ k) : alistGet (alistRemove l k) k2 = alistGet l k2 := by
  have h' : k ≠ k2 := Ne.symm h
  induction l with
  | nil => rfl
  | cons hd tl ih =>
    obtain ⟨k', v'⟩ := hd
    by_cases hk : k' = k
    · subst hk
      simpa [alistRemove, alistGet, h'] using ih
    · simp [alistRemove, alistGet, hk, ih]

theorem contains_filter_ne (l : List String) (x : String) :
    (l.filter (fun u => u ≠ x)).contains x = false := by
  induction l with
  | nil => rfl
  | cons hd tl ih =>
    by_cases h : hd = x
    · simp [List.filter_cons, h, ih]
    · have h' : ¬ x = hd := fun e => h e.symm
      simp [List.filter_cons, h, ih, h']

theorem map_id_of_no_match (db : AccountDb) (uuid : String)
    (pk : Option JsonValue) (h : Auth.existsUuid db uuid = false) :
    Auth.updatePublicKey db uuid pk = db := by
  induction db with
  | nil => rfl
  | cons a tl ih =>
    simp only [Auth.existsUuid, List.any_cons, Bool.or_eq_false_iff,
      decide_eq_false_iff_not] at h
    simp [Auth.updatePublicKey, h.1]
    exact ih (by simp [Auth.existsUuid, h.2])

theorem alistGet_nil {α : Type} (k : String) :
    alistGet ([] : List (String × α)) k = none := rfl

/-- C8 (amended): a relay request on a socket with no bound identity is
silently ignored: the handler leaves the whole state unchanged and emits
nothing at all, so nothing is delivered or queued and no error event
reaches the caller. -/
theorem C8_unauthenticated_relay_silent (st : ServerState) (now : Int)
    (socketId : String) (data : RelayData)
    (h : alistGet st.socketToUuid socketId = none) :
    relayHandler st now socketId data = (st, []) := by
  obtain ⟨m, t, p⟩ := data
  cases p <;> simp [relayHandler, h]

/-- C8 witness: the general silent-ignore theorem applied at a concrete
unbound socket. -/
theorem C8_unauthenticated_relay_silent_witness :
    relayHandler ⟨[], [], [], ["u9"], [], [], []⟩ 5 "sX"
      ⟨"m", "u2", some (.text "t")⟩ = (⟨[], [], [], ["u9"], [], [], []⟩, []) :=
  C8_unauthenticated_relay_silent _ 5 "sX" _ rfl

/-- C8 counterexample: on an empty server a relay from the unbound socket
"s1" produces no emission whatsoever, while the claim requires an
`error_msg` event carrying an unauthenticated error to be emitted. -/
theorem C8_counterexample :
    (relayHandler ⟨[], [], [], [], [], [], []⟩ 0 "s1"
      ⟨"m1", "u2", some (.text "hello")⟩).2 = [] := rfl

/-- C10 (confirmed): `register_master` with a uuid that is absent from the
account store and without complete signup details only emits the
"Invalid UUID or Unauthorized" error: the account store, the
session-to-identity map, the presence state and the message queues all
stay exactly as they were, and no queue flush happens. -/
theorem C10_register_unknown_uuid_rejected (db : AccountDb)
    (st : ServerState) (now : Int) (socketId : String)
    (ev : RegisterMasterEvent)
    (hsign : (truthyStr ev.username && truthyStr ev.salt &&
      truthyJson ev.kdfParams) = false)
    (hex : Auth.existsUuid db ev.uuid = false) :
    registerMasterHandler db st now socketId ev =
      (db, st, [(socketId, .error_msg "Invalid UUID or Unauthorized")]) := by
  have hcont : registerMasterContinue db st now socketId ev =
      (db, st, [(socketId, .error_msg "Invalid UUID or Unauthorized")]) := by
    unfold registerMasterContinue
    rw [hex]
    simp
  unfold registerMasterHandler
  rw [hsign]
  simp only [Bool.false_eq_true, if_false]
  split
  · rw [map_id_of_no_match db ev.uuid ev.publicKey hex]
    exact hcont
  · exact hcont

/-- C10 witness: the rejection theorem applied to an empty account store
and an unknown uuid on an empty server. -/
theorem C10_register_unknown_uuid_rejected_witness :
    registerMasterHandler [] ⟨[], [], ["s1"], [], [], [], []⟩ 0 "s1"
      { uuid := "ghost" } =
      ([], ⟨[], [], ["s1"], [], [], [], []⟩,
       [("s1", .error_msg "Invalid UUID or Unauthorized")]) :=
  C10_register_unknown_uuid_rejected [] _ 0 "s1" { uuid := "ghost" } rfl rfl

/-- C6 (confirmed): the rate limiter implements exactly the specified
token-bucket step — tokens become
min(MAX_TOKENS, tokens + elapsed_seconds * REFILL_RATE) with
MAX_TOKENS = 100 and REFILL_RATE = 10, last_refill becomes now, and the
request is admitted (one token consumed) iff tokens ≥ 1 — and a denied
relay request is answered with the rate-limit error alone. -/
theorem C6_rate_limiter_matches_spec :
    (∀ (now : Int) (rl : List (String × RateBucket)) (sid : String),
      checkRateLimit now rl sid =
        ((specRateLimitStep (bucketOf rl sid now) now).1,
         if (alistGet rl sid).isSome ||
             (specRateLimitStep (bucketOf rl sid now) now).1 then
           alistSet rl sid (specRateLimitStep (bucketOf rl sid now) now).2
         else rl)) ∧
    (∀ (st : ServerState) (now : Int) (sid : String) (data : RelayData)
      (uuid : String) (p : Payload),
      alistGet st.socketToUuid sid = some uuid →
      data.payload = some p → ¬ data.to_ = "" →
      (specRateLimitStep (bucketOf st.rateLimits sid now) now).1 = false →
      relayHandler st now sid data =
        ({ st with rateLimits := (checkRateLimit now st.rateLimits sid).2 },
         [(sid, .error_msg "Rate limit exceeded")])) := by
  have hstep : ∀ (now : Int) (rl : List (String × RateBucket)) (sid : String),
      checkRateLimit now rl sid =
        ((specRateLimitStep (bucketOf rl sid now) now).1,
         if (alistGet rl sid).isSome ||
             (specRateLimitStep (bucketOf rl sid now) now).1 then
           alistSet rl sid (specRateLimitStep (bucketOf rl sid now) now).2
         else rl) := by
    intro now rl sid
    unfold checkRateLimit specRateLimitStep bucketOf
    split <;> rename_i h <;> simp [h] <;> split <;> simp
  refine ⟨hstep, ?_⟩
  intro st now sid data uuid p h1 h2 h3 h4
  obtain ⟨m, t, pl⟩ := data
  simp only at h2 h3 h4
  subst h2
  have hrl : (checkRateLimit now st.rateLimits sid).1 = false := by
    rw [hstep now st.rateLimits sid]
    exact h4
  simp [relayHandler, h1, h3, hrl]

/-- C6 witness: the rate-limiter theorem applied at a concrete denied
request. -/
theorem C6_rate_limiter_matches_spec_witness :
    relayHandler stC6 0 "s1" ⟨"m1", "u2", some (.text "x")⟩ =
      ({ stC6 with rateLimits := (checkRateLimit 0 stC6.rateLimits "s1").2 },
       [("s1", .error_msg "Rate limit exceeded")]) :=
  C6_rate_limiter_matches_spec.2 stC6 0 "s1" ⟨"m1", "u2", some (.text "x")⟩
    "u1" (.text "x") (by decide) rfl (by decide)
    (by simp [specRateLimitStep, bucketOf, stC6, alistGet, MAX_TOKENS,
      REFILL_RATE]; decide)

theorem checkRateLimit_fresh (now : Int) (rl : List (String × RateBucket))
    (sid : String) (h : alistGet rl sid = none) :
    checkRateLimit now rl sid =
      (true, alistSet rl sid { tokens := MAX_TOKENS - 1, lastRefill := now }) := by
  unfold checkRateLimit
  rw [h]
  norm_num [MAX_TOKENS, REFILL_RATE]

theorem relayHandler_offline_eval (st : ServerState) (now : Int)
    (sid : String) (data : RelayData) (uuid : String) (p : Payload)
    (h1 : alistGet st.socketToUuid sid = some uuid)
    (h2 : data.payload = some p) (h3 : ¬ data.to_ = "")
    (h4 : (checkRateLimit now st.rateLimits sid).1 = true)
    (h5 : alistGet st.presence data.to_ = none) :
    relayHandler st now sid data =
      ({ st with
         rateLimits := (checkRateLimit now st.rateLimits sid).2,
         queues := (alistSet st.queues data.to_
           (MessageQueue.push now (st.queueOf data.to_)
             ⟨data.msgId, uuid, data.to_, p, now, none⟩)) },
       [(sid, .dispatch_status data.to_ data.msgId "queued")]) := by
  obtain ⟨m, t, pl⟩ := data
  simp only at h2 h3 h5
  subst h2
  simp [relayHandler, PresenceStore.getSocketId, ServerState.queueOf, h1, h3,
    h4, h5]

theorem relayHandler_delivered_eval (st : ServerState) (now : Int)
    (sid : String) (data : RelayData) (uuid : String) (p : Payload)
    (rsid : String) (expireAt : Int)
    (h1 : alistGet st.socketToUuid sid = some uuid)
    (h2 : data.payload = some p) (h3 : ¬ data.to_ = "")
    (h4 : (checkRateLimit now st.rateLimits sid).1 = true)
    (h5 : alistGet st.presence data.to_ = some (rsid, expireAt))
    (h6 : now < expireAt)
    (h7 : st.connectedSockets.contains rsid = true) :
    relayHandler st now sid data =
      ({ st with rateLimits := (checkRateLimit now st.rateLimits sid).2 },
       [(rsid, .relay_push ⟨data.msgId, uuid, data.to_, p, now, none⟩),
        (sid, .dispatch_status data.to_ data.msgId "delivered")]) := by
  obtain ⟨m, t, pl⟩ := data
  simp only at h2 h3 h5
  subst h2
  have h7' : rsid ∈ st.connectedSockets := by simpa using h7
  simp [relayHandler, PresenceStore.getSocketId, h1, h3, h4, h5, h6, h7']

theorem live_subset (qs : QueueState) (now : Int) (it : QueuedItem)
    (h : it ∈ qs.live now) : it ∈ qs.items := by
  unfold QueueState.live at h
  split at h
  · exact h
  · cases h

theorem relay_emit_cases (st : ServerState) (now : Int) (sid : String)
    (data : RelayData) (dest : String) (ev : ServerEvent)
    (hmem : (dest, ev) ∈ (relayHandler st now sid data).2) :
    (dest = sid ∧
      (ev = .error_msg "Rate limit exceeded" ∨
       ev = .dispatch_status data.to_ data.msgId "queued" ∨
       ev = .dispatch_status data.to_ data.msgId "delivered")) ∨
    ((∃ e, alistGet st.presence data.to_ = some (dest, e)) ∧
      (∃ uuid p, alistGet st.socketToUuid sid = some uuid ∧
        data.payload = some p ∧
        ev = .relay_push ⟨data.msgId, uuid, data.to_, p, now, none⟩)) := by
  obtain ⟨m, t, pl⟩ := data
  rcases hs : alistGet st.socketToUuid sid with _ | uuid
  · simp [relayHandler, hs] at hmem
  · rcases pl with _ | p
    · simp [relayHandler, hs] at hmem
    · by_cases ht : t = ""
      · simp [relayHandler, hs, ht] at hmem
      · by_cases hrl : (checkRateLimit now st.rateLimits sid).1 = true
        · rcases hp : alistGet st.presence t with _ | ⟨rsid, exp⟩
          · simp [relayHandler, PresenceStore.getSocketId, hs, ht, hrl,
              hp] at hmem
            exact Or.inl ⟨hmem.1, Or.inr (Or.inl hmem.2)⟩
          · by_cases hcon : st.connectedSockets.contains rsid = true
            · have hcon' : rsid ∈ st.connectedSockets := by simpa using hcon
              by_cases hexp : now < exp
              · simp [relayHandler, PresenceStore.getSocketId, hs, ht, hrl,
                  hp, hexp, hcon'] at hmem
                rcases hmem with ⟨h1, h2⟩ | ⟨h1, h2⟩
                · subst h1
                  exact Or.inr ⟨⟨exp, rfl⟩, uuid, p, rfl, rfl, h2⟩
                · exact Or.inl ⟨h1, Or.inr (Or.inr h2)⟩
              · simp [relayHandler, PresenceStore.getSocketId, hs, ht, hrl,
                  hp, hexp] at hmem
                exact Or.inl ⟨hmem.1, Or.inr (Or.inl hmem.2)⟩
            · have hcon' : rsid ∉ st.connectedSockets := by simpa using hcon
              by_cases hexp : now < exp
              · simp [relayHandler, PresenceStore.getSocketId, hs, ht, hrl,
                  hp, hexp, hcon'] at hmem
                exact Or.inl ⟨hmem.1, Or.inr (Or.inl hmem.2)⟩
              · simp [relayHandler, PresenceStore.getSocketId, hs, ht, hrl,
                  hp, hexp] at hmem
                exact Or.inl ⟨hmem.1, Or.inr (Or.inl hmem.2)⟩
        · simp [relayHandler, hs, ht, hrl] at hmem
          exact Or.inl ⟨hmem.1, Or.inl hmem.2⟩

theorem relay_queue_cases (st : ServerState) (now : Int) (sid : String)
    (data : RelayData) (u : String) (it : QueuedItem)
    (hmem : it ∈ ((relayHandler st now sid data).1.queueOf u).items) :
    it ∈ (st.queueOf u).items ∨ it.type = none := by
  obtain ⟨m, t, pl⟩ := data
  rcases hs : alistGet st.socketToUuid sid with _ | uuid
  · simp [relayHandler, hs] at hmem
    exact Or.inl hmem
  · rcases pl with _ | p
    · simp [relayHandler, hs] at hmem
      exact Or.inl hmem
    · by_cases ht : t = ""
      · simp [relayHandler, hs, ht] at hmem
        exact Or.inl hmem
      · by_cases hrl : (checkRateLimit now st.rateLimits sid).1 = true
        · rcases hp : alistGet st.presence t with _ | ⟨rsid, exp⟩
          · simp only [relayHandler, PresenceStore.getSocketId,
              ServerState.queueOf, hs, ht, hrl, hp] at hmem
            simp at hmem
            by_cases hu : u = t
            · subst hu
              rw [alistGet_set_eq] at hmem
              simp only [Option.getD_some, MessageQueue.push,
                List.mem_append, List.mem_singleton] at hmem
              rcases hmem with hold | hnew
              · exact Or.inl (live_subset _ _ _ hold)
              · right
                rw [hnew]
            · rw [alistGet_set_ne _ _ _ _ hu] at hmem
              exact Or.inl hmem
          · by_cases hcon : st.connectedSockets.contains rsid = true
            · have hcon' : rsid ∈ st.connectedSockets := by simpa using hcon
              by_cases hexp : now < exp
              · simp [relayHandler, PresenceStore.getSocketId,
                  ServerState.queueOf, hs, ht, hrl, hp, hexp, hcon'] at hmem
                exact Or.inl hmem
              · simp only [relayHandler, PresenceStore.getSocketId,
                  ServerState.queueOf, hs, ht, hrl, hp, hexp] at hmem
                simp [hexp] at hmem
                by_cases hu : u = t
                · subst hu
                  rw [alistGet_set_eq] at hmem
                  simp only [Option.getD_some, MessageQueue.push,
                    List.mem_append, List.mem_singleton] at hmem
                  rcases hmem with hold | hnew
                  · exact Or.inl (live_subset _ _ _ hold)
                  · right
                    rw [hnew]
                · rw [alistGet_set_ne _ _ _ _ hu] at hmem
                  exact Or.inl hmem
            · have hcon' : rsid ∉ st.connectedSockets := by simpa using hcon
              by_cases hexp : now < exp
              · simp only [relayHandler, PresenceStore.getSocketId,
                  ServerState.queueOf, hs, ht, hrl, hp, hexp] at hmem
                simp [hcon'] at hmem
                by_cases hu : u = t
                · subst hu
                  rw [alistGet_set_eq] at hmem
                  simp only [Option.getD_some, MessageQueue.push,
                    List.mem_append, List.mem_singleton] at hmem
                  rcases hmem with hold | hnew
                  · exact Or.inl (live_subset _ _ _ hold)
                  · right
                    rw [hnew]
                · rw [alistGet_set_ne _ _ _ _ hu] at hmem
                  exact Or.inl hmem
              · simp only [relayHandler, PresenceStore.getSocketId,
                  ServerState.queueOf, hs, ht, hrl, hp, hexp] at hmem
                simp [hexp] at hmem
                by_cases hu : u = t
                · subst hu
                  rw [alistGet_set_eq] at hmem
                  simp only [Option.getD_some, MessageQueue.push,
                    List.mem_append, List.mem_singleton] at hmem
                  rcases hmem with hold | hnew
                  · exact Or.inl (live_subset _ _ _ hold)
                  · right
                    rw [hnew]
                · rw [alistGet_set_ne _ _ _ _ hu] at hmem
                  exact Or.inl hmem
        · simp [relayHandler, ServerState.queueOf, hs, ht, hrl] at hmem
          exact Or.inl hmem

/-- C1 (amended): the per-identity queue is unbounded — `MessageQueue.push`
appends unconditionally, one item per call, with no MAX_QUEUE_LEN check
and no rejection — and the relay handler never emits a dispatch_status
with status "dropped" on any input. -/
theorem C1_push_never_drops :
    (∀ (now : Int) (qs : QueueState) (env : RelayPayload),
      (MessageQueue.push now qs env).items.length =
        (qs.live now).length + 1) ∧
    (∀ (st : ServerState) (now : Int) (sid : String) (data : RelayData)
      (dest : String) (ev : ServerEvent),
      (dest, ev) ∈ (relayHandler st now sid data).2 →
      ∀ (t m : String), ¬ ev = .dispatch_status t m "dropped") := by
  constructor
  · intro now qs env
    simp [MessageQueue.push]
  · intro st now sid data dest ev hmem t m
    rcases relay_emit_cases st now sid data dest ev hmem with
      ⟨_, h | h | h⟩ | ⟨_, ⟨uuid, p, _, _, h⟩⟩ <;> subst h <;> simp

/-- C1 witness: the never-drops theorem applied to the concrete "queued"
emission of a relay to the offline "u2". -/
theorem C1_push_never_drops_witness :
    ¬ ServerEvent.dispatch_status "u2" "m0" "queued" =
      .dispatch_status "u2" "m0" "dropped" :=
  C1_push_never_drops.2 stBound 0 "s1" ⟨"m0", "u2", some (.text "x")⟩ "s1"
    (.dispatch_status "u2" "m0" "queued")
    (by
      rw [relayHandler_offline_eval stBound 0 "s1"
        ⟨"m0", "u2", some (.text "x")⟩ "u1" (.text "x") (by decide) rfl
        (by decide)
        (by rw [checkRateLimit_fresh 0 stBound.rateLimits "s1" (by decide)])
        (by decide)]
      simp) "u2" "m0"

set_option maxRecDepth 40000 in
/-- C1 counterexample: with the queue of "u2" already holding
MAX_QUEUE_LEN = 100 items, one more push grows it to 101 items — the push
is not rejected, the queue does not stay unchanged, and the sender is
answered "queued" rather than "dropped". -/
theorem C1_counterexample :
    fullQueueC1.items.length = MAX_QUEUE_LEN ∧
    (MessageQueue.push 3 fullQueueC1 (envC1 100)).items.length =
      MAX_QUEUE_LEN + 1 ∧
    (relayHandler stC1 3 "s1" ⟨"m100", "u2", some (.text "x")⟩).2 =
      [("s1", .dispatch_status "u2" "m100" "queued")] ∧
    ((relayHandler stC1 3 "s1" ⟨"m100", "u2", some (.text "x")⟩).1.queueOf
        "u2").items.length = MAX_QUEUE_LEN + 1 := by
  refine ⟨by decide, by decide, ?_, ?_⟩
  all_goals
    rw [relayHandler_offline_eval stC1 3 "s1"
      ⟨"m100", "u2", some (.text "x")⟩ "u1" (.text "x") (by decide) rfl
      (by decide)
      (by rw [checkRateLimit_fresh 3 stC1.rateLimits "s1" (by decide)])
      (by decide)]
  all_goals decide

/-- C2 (amended): the relay handler performs no echo fan-out: every
emission goes either back to the sender's own socket or to the socket the
presence store names for the recipient — other live sessions bound to the
sender's identity receive nothing — and no emitted relay_push and no
stored queue item ever carries an envelope kind (the handler leaves
`type` unset). -/
theorem C2_no_echo :
    (∀ (st : ServerState) (now : Int) (sid : String) (data : RelayData)
      (dest : String) (ev : ServerEvent),
      (dest, ev) ∈ (relayHandler st now sid data).2 →
      dest = sid ∨ (∃ e, alistGet st.presence data.to_ = some (dest, e))) ∧
    (∀ (st : ServerState) (now : Int) (sid : String) (data : RelayData)
      (dest : String) (env : RelayPayload),
      (dest, ServerEvent.relay_push env) ∈ (relayHandler st now sid data).2 →
      env.type = none) ∧
    (∀ (st : ServerState) (now : Int) (sid : String) (data : RelayData)
      (u : String) (it : QueuedItem),
      it ∈ ((relayHandler st now sid data).1.queueOf u).items →
      it ∈ (st.queueOf u).items ∨ it.type = none) := by
  refine ⟨?_, ?_, ?_⟩
  · intro st now sid data dest ev hmem
    rcases relay_emit_cases st now sid data dest ev hmem with
      ⟨h1, _⟩ | ⟨⟨e, he⟩, _⟩
    · exact Or.inl h1
    · exact Or.inr ⟨e, he⟩
  · intro st now sid data dest env hmem
    rcases relay_emit_cases st now sid data dest _ hmem with
      ⟨_, h | h | h⟩ | ⟨_, ⟨uuid, p, _, _, h⟩⟩
    · simp at h
    · simp at h
    · simp at h
    · simp only [ServerEvent.relay_push.injEq] at h
      rw [h]
  · intro st now sid data u it hmem
    exact relay_queue_cases st now sid data u it hmem

/-- C2 witness: the no-echo theorem applied to the concrete relay_push the
relay emits toward the online recipient — its envelope kind is unset. -/
theorem C2_no_echo_witness :
    (RelayPayload.mk "m1" "u1" "u2" (.text "hi") 5 none).type = none :=
  C2_no_echo.2.1 stC2 5 "s1" ⟨"m1", "u2", some (.text "hi")⟩ "s3"
    ⟨"m1", "u1", "u2", .text "hi", 5, none⟩
    (by
      rw [relayHandler_delivered_eval stC2 5 "s1"
        ⟨"m1", "u2", some (.text "hi")⟩ "u1" (.text "hi") "s3" 3600000
        (by decide) rfl (by decide)
        (by rw [checkRateLimit_fresh 5 stC2.rateLimits "s1" (by decide)])
        (by decide) (by decide) (by decide)]
      simp)

/-- C2 counterexample: "s1" and "s2" are both bound to "u1" and "s1"
relays to the online "u2"; the complete emission list holds only the
relay_push to "s3" and the dispatch_status to "s1" — the other session
"s2" of the sender's identity receives nothing, in particular no copy
with kind echo. -/
theorem C2_counterexample :
    (relayHandler stC2 5 "s1" ⟨"m1", "u2", some (.text "hi")⟩).2 =
      [("s3", .relay_push ⟨"m1", "u1", "u2", .text "hi", 5, none⟩),
       ("s1", .dispatch_status "u2" "m1" "delivered")] ∧
    ((relayHandler stC2 5 "s1" ⟨"m1", "u2", some (.text "hi")⟩).2.filter
        (fun e => e.1 = "s2")) = [] ∧
    alistGet stC2.socketToUuid "s2" = some "u1" := by
  have h := relayHandler_delivered_eval stC2 5 "s1"
    ⟨"m1", "u2", some (.text "hi")⟩ "u1" (.text "hi") "s3" 3600000
    (by decide) rfl (by decide)
    (by rw [checkRateLimit_fresh 5 stC2.rateLimits "s1" (by decide)])
    (by decide) (by decide) (by decide)
  rw [h]
  exact ⟨rfl, by decide, by decide⟩

/-- C3 (amended): the relay handler enforces no payload-size limit — the
size is computed only for the metadata log — so a payload exceeding
MAX_PAYLOAD_SIZE is relayed exactly like a small one: here it is queued
for the offline recipient with a "queued" status and no error of any
kind. -/
theorem C3_no_size_check (st : ServerState) (now : Int) (sid : String)
    (data : RelayData) (uuid : String) (p : Payload)
    (h1 : alistGet st.socketToUuid sid = some uuid)
    (h2 : data.payload = some p) (h3 : ¬ data.to_ = "")
    (h4 : (checkRateLimit now st.rateLimits sid).1 = true)
    (h5 : alistGet st.presence data.to_ = none)
    (_hbig : payloadSize p > MAX_PAYLOAD_SIZE) :
    relayHandler st now sid data =
      ({ st with
         rateLimits := (checkRateLimit now st.rateLimits sid).2,
         queues := (alistSet st.queues data.to_
           (MessageQueue.push now (st.queueOf data.to_)
             ⟨data.msgId, uuid, data.to_, p, now, none⟩)) },
       [(sid, .dispatch_status data.to_ data.msgId "queued")]) :=
  relayHandler_offline_eval st now sid data uuid p h1 h2 h3 h4 h5

/-- C3 witness: the no-size-check theorem applied to a concrete payload of
MAX_PAYLOAD_SIZE + 1 bytes sent to the offline "u2". -/
theorem C3_no_size_check_witness :
    relayHandler stBound 7 "s1" ⟨"m1", "u2", some bigC3⟩ =
      ({ stBound with
         rateLimits := (checkRateLimit 7 stBound.rateLimits "s1").2,
         queues := (alistSet stBound.queues "u2"
           (MessageQueue.push 7 (stBound.queueOf "u2")
             ⟨"m1", "u1", "u2", bigC3, 7, none⟩)) },
       [("s1", .dispatch_status "u2" "m1" "queued")]) :=
  C3_no_size_check stBound 7 "s1" ⟨"m1", "u2", some bigC3⟩ "u1" bigC3
    (by decide) rfl (by decide)
    (by rw [checkRateLimit_fresh 7 stBound.rateLimits "s1" (by decide)])
    (by decide)
    (by simp [bigC3, payloadSize, List.length_replicate])

/-- C3 counterexample: a relay whose payload size is MAX_PAYLOAD_SIZE + 1
does not fail with any too_large error: the only emission is the
"queued" dispatch_status, the envelope is placed in the recipient's
queue, and the server state is not left unchanged. -/
theorem C3_counterexample :
    payloadSize bigC3 > MAX_PAYLOAD_SIZE ∧
    (relayHandler stBound 7 "s1" ⟨"m1", "u2", some bigC3⟩).2 =
      [("s1", .dispatch_status "u2" "m1" "queued")] ∧
    ((relayHandler stBound 7 "s1" ⟨"m1", "u2", some bigC3⟩).1.queueOf
        "u2").items.length = 1 := by
  refine ⟨by simp [bigC3, payloadSize, List.length_replicate], ?_, ?_⟩
  all_goals
    rw [relayHandler_offline_eval stBound 7 "s1" ⟨"m1", "u2", some bigC3⟩
      "u1" bigC3 (by decide) rfl (by decide)
      (by rw [checkRateLimit_fresh 7 stBound.rateLimits "s1" (by decide)])
      (by decide)]
  all_goals
    simp [ServerState.queueOf, alistGet_set_eq, MessageQueue.push,
      QueueState.live, QueueState.empty, alistGet]

/-- C4 (amended): on a successful register the flush delivers the decode of
every item the Redis list still holds — flush performs no filtering by the
per-item expires_at, so an envelope whose expires_at has already passed is
still delivered to the reconnecting session whenever the list-level Redis
key TTL has not yet removed the whole list. -/
theorem C4_flush_no_expiry_filter (db : AccountDb) (st : ServerState)
    (now : Int) (sid : String) (ev : RegisterMasterEvent)
    (hu : ev.username = none) (hpk : ev.publicKey = none)
    (hid : ¬ ev.uuid = "") (hex : Auth.existsUuid db ev.uuid = true) :
    (registerMasterHandler db st now sid ev).2.2 =
      (sid, .registered "master" ev.uuid) ::
      (if 0 < ((st.queueOf ev.uuid).live now).length then
        [(sid, .queue_flush (((st.queueOf ev.uuid).live now).map decodeItem))]
      else []) := by
  obtain ⟨uuid, username, salt, kdf, pk⟩ := ev
  simp only at hu hpk hid hex
  subst hu
  subst hpk
  unfold registerMasterHandler
  simp only [truthyStr, truthyJson, Bool.false_and, Bool.and_false,
    Bool.false_eq_true, if_false]
  unfold registerMasterContinue
  simp [hid, hex, PresenceStore.setOnline, MessageQueue.flush,
    ServerState.queueOf]

/-- C4 witness: the unfiltered-flush theorem applied at a concrete state
whose queue holds an item that expired at 1800000, read at 1860000. -/
theorem C4_flush_no_expiry_filter_witness :
    (registerMasterHandler demoDb stC4 1860000 "s2" { uuid := "u2" }).2.2 =
      ("s2", .registered "master" "u2") ::
      (if 0 < ((stC4.queueOf "u2").live 1860000).length then
        [("s2",
          .queue_flush (((stC4.queueOf "u2").live 1860000).map decodeItem))]
      else []) :=
  C4_flush_no_expiry_filter demoDb stC4 1860000 "s2" { uuid := "u2" } rfl rfl
    (by decide) (by decide)

/-- C4 counterexample: "u2" reconnects at time 1860000 and the queue_flush
batch contains the envelope whose expires_at = 1800000 already passed
(the second push at 1740000 kept the Redis key alive until 3540000), so
an expired item is delivered, against the claimed read-time filter. -/
theorem C4_counterexample :
    (registerMasterHandler demoDb stC4 1860000 "s2" { uuid := "u2" }).2.2 =
      [("s2", .registered "master" "u2"),
       ("s2", .queue_flush
         [⟨"m1", "u1", "u2", .text "early", 0, none, 1800000⟩,
          ⟨"m2", "u1", "u2", .text "late", 1740000, none, 3540000⟩])] ∧
    (1800000 : Int) < 1860000 :=
  ⟨by decide, by decide⟩

/-- C5 (amended): is_online is not equivalent to the existence of a bound
session: the disconnect handler unconditionally marks the disconnecting
socket's identity offline, even while another live session remains bound
to the same identity. -/
theorem C5_disconnect_forces_offline (st : ServerState) (sid uuid : String)
    (h : alistGet st.socketToUuid sid = some uuid) :
    PresenceStore.isOnline (disconnectHandler st sid) uuid = false := by
  simp only [disconnectHandler, h, PresenceStore.setOffline]
  simp only [PresenceStore.isOnline]
  exact contains_filter_ne st.onlineUsers uuid

/-- C5 witness: the forced-offline theorem applied to the two-device state,
disconnecting the first device. -/
theorem C5_disconnect_forces_offline_witness :
    PresenceStore.isOnline (disconnectHandler stC5 "s1") "u1" = false :=
  C5_disconnect_forces_offline stC5 "s1" "u1" (by decide)

/-- C5 counterexample: "s1" and "s2" are both registered for "u1"; after
"s1" disconnects, the session "s2" is still bound to "u1" yet
is_online("u1") is false — the claimed equivalence (and the requirement
that the identity stay online) fails. -/
theorem C5_counterexample :
    alistGet (disconnectHandler stC5 "s1").socketToUuid "s2" = some "u1" ∧
    PresenceStore.isOnline (disconnectHandler stC5 "s1") "u1" = false :=
  ⟨by decide, by decide⟩

/-- C7 (amended): a queue round-trip parses the JSON-serialized payload
back, which preserves text payloads and non-string structured payloads,
but binary payloads are re-encoded — JSON.stringify turns a Buffer into a
plain object, and JSON.parse can never return a Buffer, so the binary
variant is not preserved. -/
theorem C7_roundtrip_partial :
    (∀ (now now2 : Int) (qs : QueueState) (env : RelayPayload),
      now2 < (MessageQueue.push now qs env).keyExpireAt →
      (MessageQueue.flush now2 (MessageQueue.push now qs env)).1.map
          (fun e => e.payload) =
        ((qs.live now).map (fun it => parsePayload it.payload)) ++
          [parsePayload (encodePayload env.payload)]) ∧
    (∀ s, parsePayload (encodePayload (.text s)) = .text s) ∧
    (∀ v : JsonValue, (∀ s, ¬ v = .str s) →
      parsePayload (encodePayload (.structured v)) = .structured v) := by
  refine ⟨?_, ?_, ?_⟩
  · intro now now2 qs env h
    simp only [MessageQueue.push] at h
    simp [MessageQueue.flush, MessageQueue.push, QueueState.live, h,
      decodeItem, List.map_map, Function.comp]
  · intro s
    rfl
  · intro v hv
    cases v with
    | str s => exact absurd rfl (hv s)
    | null => rfl
    | bool b => rfl
    | num n => rfl
    | arr xs => rfl
    | obj fs => rfl

/-- C7 witness: the round-trip theorem applied to a concrete text envelope
pushed at time 0 and flushed at time 1. -/
theorem C7_roundtrip_partial_witness :
    (MessageQueue.flush 1 (MessageQueue.push 0 QueueState.empty
        ⟨"mW", "u1", "u2", .text "hi", 0, none⟩)).1.map
      (fun e => e.payload) = [Payload.text "hi"] :=
  C7_roundtrip_partial.1 0 1 QueueState.empty
    ⟨"mW", "u1", "u2", .text "hi", 0, none⟩ (by decide)

/-- C7 counterexample: pushing an envelope whose payload is the binary
bytes [1, 2, 3] and flushing returns a structured JSON object (the
Buffer toJSON form), not the binary payload that was pushed — the binary
variant does not survive the queue round-trip. -/
theorem C7_binary_counterexample :
    (MessageQueue.flush 1 (MessageQueue.push 0 QueueState.empty
        ⟨"mB", "u1", "u2", .binary [1, 2, 3], 0, none⟩)).1.map
      (fun e => e.payload) =
      [Payload.structured (.obj (.cons "type" (.str "Buffer")
        (.cons "data" (.arr (.cons (.num 1) (.cons (.num 2)
          (.cons (.num 3) .nil)))) .nil)))] ∧
    ¬ Payload.structured (.obj (.cons "type" (.str "Buffer")
        (.cons "data" (.arr (.cons (.num 1) (.cons (.num 2)
          (.cons (.num 3) .nil)))) .nil))) = .binary [1, 2, 3] :=
  ⟨by decide, by decide⟩

/-- C9 (amended): the invite code is generated by Math.random (not a
cryptographic RNG) as up to six — possibly fewer — uppercase base-36
characters (digits and A-Z, not hexadecimal), and the handler stores
invite:code holding the identity and a username with expiry one day
ahead (TTL 86400 s) while reporting the code and that expiry to the
caller. -/
theorem C9_invite_code_properties (db : AccountDb) (st : ServerState)
    (now : Int) (sid : String) (digits : List (Fin 36)) (uuid : String)
    (h : alistGet st.socketToUuid sid = some uuid) :
    (genInviteCode digits).length ≤ 6 ∧
    (∀ c ∈ (genInviteCode digits).data,
      ('0' ≤ c ∧ c ≤ '9') ∨ ('A' ≤ c ∧ c ≤ 'Z')) ∧
    (∃ uname,
      alistGet (createInviteCodeHandler db st now sid digits).1.invites
          (genInviteCode digits) =
        some (⟨uuid, uname⟩, now + 86400 * 1000)) ∧
    (createInviteCodeHandler db st now sid digits).2 =
      [(sid, .invite_code_created (genInviteCode digits)
        (now + 86400 * 1000))] := by
  refine ⟨?_, ?_, ?_, ?_⟩
  · simp only [genInviteCode, String.length, List.length_map,
      List.length_take]
    omega
  · intro c hc
    simp only [genInviteCode, String.data] at hc
    rw [List.mem_map] at hc
    obtain ⟨d, hmem, hd⟩ := hc
    subst hd
    clear hmem
    revert d
    decide
  · simp only [createInviteCodeHandler, h]
    exact ⟨_, alistGet_set_eq _ _ _⟩
  · simp [createInviteCodeHandler, h]

/-- C9 witness: the invite-code theorem applied at the digit sequence of
Math.random() = 1/36, whose generated code is the single character
"1". -/
theorem C9_invite_code_properties_witness :
    (createInviteCodeHandler demoDb stBound 11 "s1" dShortC9).2 =
      [("s1", .invite_code_created (genInviteCode dShortC9)
        (11 + 86400 * 1000))] :=
  (C9_invite_code_properties demoDb stBound 11 "s1" dShortC9 "u1"
    (by decide)).2.2.2

/-- C9 counterexample: the handler can create the code "ZZZZZZ" — an
uppercase base-36 string that is not hexadecimal — and the code for
Math.random() = 1/36 is "1", a single character, so the code is neither
hexadecimal nor always 6 characters long. -/
theorem C9_counterexample :
    genInviteCode dC9 = "ZZZZZZ" ∧
    ("ZZZZZZ".data.all fun c => c.isDigit || ('A' ≤ c && c ≤ 'F')) = false ∧
    genInviteCode dShortC9 = "1" ∧
    (createInviteCodeHandler demoDb stBound 0 "s1" dC9).2 =
      [("s1", .invite_code_created "ZZZZZZ" 86400000)] :=
  ⟨by decide, by decide, by decide, by decide⟩
